import Mathlib

/-!
Verification of the cloth simulation engine found in
src/experience/components/ClothSimulation.jsx (basic variant) and
src/experience/components/AdvancedClothSimulation.jsx (advanced variant).

Positions and scalars are modelled over the real numbers.  The vector
operations mirror the THREE.Vector3 methods the source uses: add, sub,
multiplyScalar, divideScalar, dot, length, distanceTo and normalize
(normalize divides by the length, or by 1 when the length is zero).
-/

namespace THREE

structure Vector3 where
  x : ℝ
  y : ℝ
  z : ℝ

def Vector3.add (a b : Vector3) : Vector3 := ⟨a.x + b.x, a.y + b.y, a.z + b.z⟩

def Vector3.sub (a b : Vector3) : Vector3 := ⟨a.x - b.x, a.y - b.y, a.z - b.z⟩

def Vector3.smul (t : ℝ) (a : Vector3) : Vector3 := ⟨t * a.x, t * a.y, t * a.z⟩

def Vector3.dot (a b : Vector3) : ℝ := a.x * b.x + a.y * b.y + a.z * b.z

def Vector3.zero : Vector3 := ⟨0, 0, 0⟩

instance : Add Vector3 := ⟨Vector3.add⟩

instance : Sub Vector3 := ⟨Vector3.sub⟩

instance : SMul ℝ Vector3 := ⟨Vector3.smul⟩

noncomputable def Vector3.length (a : Vector3) : ℝ := Real.sqrt (Vector3.dot a a)

noncomputable def Vector3.distanceTo (a b : Vector3) : ℝ := Vector3.length (a - b)

noncomputable def Vector3.normalize (a : Vector3) : Vector3 :=
  if Vector3.length a = 0 then a else (Vector3.length a)⁻¹ • a

end THREE

/-! Constants of the basic variant (ClothSimulation.jsx, lines 10-13). -/

namespace ClothSimulation

def DAMPING : ℝ := 0.99

def STIFFNESS : ℝ := 0.4

def GRAVITY : ℝ := -0.0098

def WIND_STRENGTH : ℝ := 0.003

end ClothSimulation

/-! Constants of the advanced variant (AdvancedClothSimulation.jsx, lines 10-14). -/

namespace AdvancedClothSimulation

def DAMPING : ℝ := 0.995

def STIFFNESS : ℝ := 0.5

def GRAVITY : ℝ := -0.0098

def WIND_STRENGTH : ℝ := 0.004

def TEAR_THRESHOLD : ℝ := 0.8

end AdvancedClothSimulation

/-! Basic variant particle (ClothSimulation.jsx, class VerletVertex, lines 15-37). -/

structure VerletVertex where
  position : THREE.Vector3
  oldPosition : THREE.Vector3
  acceleration : THREE.Vector3
  isFixed : Bool

/-- Constructor of VerletVertex (lines 16-21): both positions start at
(x, y, z) and the acceleration starts at zero. -/
def VerletVertex.init (x y z : ℝ) (isFixed : Bool) : VerletVertex :=
  { position := ⟨x, y, z⟩, oldPosition := ⟨x, y, z⟩,
    acceleration := THREE.Vector3.zero, isFixed := isFixed }

/-- VerletVertex.update (lines 23-32). -/
def VerletVertex.update (v : VerletVertex) (deltaTime : ℝ) : VerletVertex :=
  if v.isFixed then v
  else
    let velocity := ClothSimulation.DAMPING • (v.position - v.oldPosition)
    { v with
      oldPosition := v.position,
      position := v.position + velocity + (deltaTime * deltaTime) • v.acceleration,
      acceleration := THREE.Vector3.zero }

/-- VerletVertex.addForce (lines 34-36): the force is added to the
acceleration unconditionally and unscaled. -/
def VerletVertex.addForce (v : VerletVertex) (force : THREE.Vector3) : VerletVertex :=
  { v with acceleration := v.acceleration + force }

/-! Basic variant constraint (ClothSimulation.jsx, class VerletConstraint, lines 39-57). -/

structure VerletConstraint where
  v1 : VerletVertex
  v2 : VerletVertex
  restLength : ℝ

/-- VerletConstraint.satisfy (lines 46-56). -/
noncomputable def VerletConstraint.satisfy (c : VerletConstraint) : VerletConstraint :=
  let delta := c.v2.position - c.v1.position
  let distance := THREE.Vector3.length delta
  if distance = 0 then c
  else
    let difference := (c.restLength - distance) / distance
    let offset := (difference * ClothSimulation.STIFFNESS * 0.5) • delta
    let v1' := if c.v1.isFixed then c.v1 else { c.v1 with position := c.v1.position - offset }
    let v2' := if c.v2.isFixed then c.v2 else { c.v2 with position := c.v2.position + offset }
    { c with v1 := v1', v2 := v2' }

/-- Wind force of the basic variant (ClothSimulation.jsx, lines 193-200). -/
noncomputable def ClothSimulation.windForce (time : ℝ) (pos : THREE.Vector3)
    (windIntensity : ℝ) : THREE.Vector3 :=
  let windTime := time * 0.5
  let windX := (Real.sin (windTime * 2 + pos.x * 3) +
      Real.sin (windTime * 3.2 + pos.z * 2)) * ClothSimulation.WIND_STRENGTH * windIntensity
  let windY := Real.sin (windTime * 1.5 + pos.x * 4 + pos.z * 3) *
      ClothSimulation.WIND_STRENGTH * 0.3 * windIntensity
  let windZ := (Real.cos (windTime * 1.8 + pos.x * 2.5) +
      Real.cos (windTime * 2.3 + pos.z * 1.8)) * ClothSimulation.WIND_STRENGTH * 0.7 * windIntensity
  ⟨windX, windY, windZ⟩

/-- Sphere collision of the basic variant (ClothSimulation.jsx, lines 203-210),
with margin 0.05. -/
noncomputable def ClothSimulation.sphereCollide (center : THREE.Vector3) (radius : ℝ)
    (v : VerletVertex) : VerletVertex :=
  let toSphere := v.position - center
  let distance := THREE.Vector3.length toSphere
  if distance < radius + 0.05 then
    { v with position := v.position +
        ((radius + 0.05) - distance) • THREE.Vector3.normalize toSphere }
  else v

/-! Advanced variant particle (AdvancedClothSimulation.jsx, class
AdvancedVerletVertex, lines 16-50). -/

structure AdvancedVerletVertex where
  position : THREE.Vector3
  oldPosition : THREE.Vector3
  acceleration : THREE.Vector3
  isFixed : Bool
  mass : ℝ
  pinned : Bool

/-- Constructor of AdvancedVerletVertex (lines 17-24): mass starts at 1.0 and
pinned starts equal to isFixed. -/
def AdvancedVerletVertex.init (x y z : ℝ) (isFixed : Bool) : AdvancedVerletVertex :=
  { position := ⟨x, y, z⟩, oldPosition := ⟨x, y, z⟩,
    acceleration := THREE.Vector3.zero, isFixed := isFixed, mass := 1.0, pinned := isFixed }

/-- AdvancedVerletVertex.update (lines 26-35). -/
def AdvancedVerletVertex.update (v : AdvancedVerletVertex) (deltaTime : ℝ) :
    AdvancedVerletVertex :=
  if v.isFixed || v.pinned then v
  else
    let velocity := AdvancedClothSimulation.DAMPING • (v.position - v.oldPosition)
    { v with
      oldPosition := v.position,
      position := v.position + velocity + (deltaTime * deltaTime) • v.acceleration,
      acceleration := THREE.Vector3.zero }

/-- AdvancedVerletVertex.addForce (lines 37-41): divideScalar by the mass,
guarded on not fixed and not pinned. -/
noncomputable def AdvancedVerletVertex.addForce (v : AdvancedVerletVertex) (force : THREE.Vector3) :
    AdvancedVerletVertex :=
  if !v.isFixed && !v.pinned then
    { v with acceleration := v.acceleration + (1 / v.mass) • force }
  else v

/-! Advanced variant constraint (AdvancedClothSimulation.jsx, class
AdvancedVerletConstraint, lines 52-93). -/

structure AdvancedVerletConstraint where
  v1 : AdvancedVerletVertex
  v2 : AdvancedVerletVertex
  restLength : ℝ
  stiffness : ℝ
  active : Bool

/-- AdvancedVerletConstraint.satisfy (lines 61-88), including the in-solver
tear check on lines 67-71 and the mass weighting on lines 78-87. -/
noncomputable def AdvancedVerletConstraint.satisfy (c : AdvancedVerletConstraint) :
    AdvancedVerletConstraint :=
  if !c.active then c
  else
    let delta := c.v2.position - c.v1.position
    let distance := THREE.Vector3.length delta
    if distance > c.restLength * AdvancedClothSimulation.TEAR_THRESHOLD ∧ c.restLength > 0.1 then
      { c with active := false }
    else if distance = 0 then c
    else
      let difference := (c.restLength - distance) / distance
      let offset := (difference * c.stiffness * 0.5) • delta
      let totalMass := c.v1.mass + c.v2.mass
      let m1 := c.v2.mass / totalMass
      let m2 := c.v1.mass / totalMass
      let v1' := if !c.v1.isFixed && !c.v1.pinned then
          { c.v1 with position := c.v1.position - m1 • offset } else c.v1
      let v2' := if !c.v2.isFixed && !c.v2.pinned then
          { c.v2 with position := c.v2.position + m2 • offset } else c.v2
      { c with v1 := v1', v2 := v2' }

/-- AdvancedVerletConstraint.tear (lines 90-92). -/
def AdvancedVerletConstraint.tear (c : AdvancedVerletConstraint) : AdvancedVerletConstraint :=
  { c with active := false }

/-- Wind force of the advanced variant (AdvancedClothSimulation.jsx,
lines 272-285). -/
noncomputable def AdvancedClothSimulation.windForce (time : ℝ) (pos : THREE.Vector3)
    (windIntensity : ℝ) : THREE.Vector3 :=
  let windTime := time * 0.3
  let noiseX := Real.sin (windTime * 2.1 + pos.x * 4) * Real.cos (windTime * 1.7 + pos.z * 3)
  let noiseY := Real.sin (windTime * 1.3 + pos.y * 5) * Real.cos (windTime * 2.4 + pos.x * 2)
  let noiseZ := Real.cos (windTime * 1.8 + pos.z * 2.5) * Real.sin (windTime * 3.1 + pos.y * 1.5)
  ⟨noiseX * AdvancedClothSimulation.WIND_STRENGTH * windIntensity,
   noiseY * AdvancedClothSimulation.WIND_STRENGTH * windIntensity * 0.3,
   noiseZ * AdvancedClothSimulation.WIND_STRENGTH * windIntensity * 0.8⟩

/-- Sphere collision of the advanced variant (AdvancedClothSimulation.jsx,
lines 289-308): positional correction with margin 0.08, then a bounce on the
previous position when the implicit velocity points into the sphere.  In the
source the correction vector is the mutated toSphere vector, so the bounce
normal is the normalization of the correction. -/
noncomputable def AdvancedClothSimulation.sphereCollide (center : THREE.Vector3) (radius : ℝ)
    (v : AdvancedVerletVertex) : AdvancedVerletVertex :=
  let toSphere := v.position - center
  let distance := THREE.Vector3.length toSphere
  let minDistance := radius + 0.08
  if distance < minDistance ∧ distance > 0 then
    let correction := (minDistance - distance) • THREE.Vector3.normalize toSphere
    let newPosition := v.position + correction
    let velocity := newPosition - v.oldPosition
    let normal := THREE.Vector3.normalize correction
    let velocityAlongNormal := THREE.Vector3.dot velocity normal
    if velocityAlongNormal < 0 then
      { v with position := newPosition,
               oldPosition := v.oldPosition - (velocityAlongNormal * (-1.5)) • normal }
    else
      { v with position := newPosition }
  else v

/-- One strided self-collision pair of the advanced variant
(AdvancedClothSimulation.jsx, lines 314-321): vertex is the current vertex of
the force loop (always non-fixed there), other is vertices[j] for the strided
index j, pushed apart symmetrically with no fixed or pinned guard on other. -/
noncomputable def AdvancedClothSimulation.selfCollide (vertex other : AdvancedVerletVertex) :
    AdvancedVerletVertex × AdvancedVerletVertex :=
  let distance := THREE.Vector3.distanceTo vertex.position other.position
  if distance < 0.1 ∧ distance > 0 then
    let separation := ((0.1 - distance) * 0.5) •
        THREE.Vector3.normalize (vertex.position - other.position)
    ({ vertex with position := vertex.position + separation },
     { other with position := other.position - separation })
  else (vertex, other)

/-- Periodic tear check of the advanced variant (AdvancedClothSimulation.jsx,
lines 341-348), run on one constraint: skip inactive constraints, tear an
active one whose current distance exceeds restLength times 2.5. -/
noncomputable def AdvancedClothSimulation.tearCheck (c : AdvancedVerletConstraint) :
    AdvancedVerletConstraint :=
  if !c.active then c
  else if THREE.Vector3.distanceTo c.v1.position c.v2.position > c.restLength * 2.5 then
    c.tear
  else c

/-- Iterated solver passes: the loop on lines 330-337 applies satisfy to each
constraint a fixed number of times (the guard on line 333 is subsumed by the
inactive early return inside satisfy). -/
noncomputable def AdvancedClothSimulation.satisfyIter :
    ℕ → AdvancedVerletConstraint → AdvancedVerletConstraint
  | 0, c => c
  | n + 1, c => AdvancedClothSimulation.satisfyIter n c.satisfy

/-- One frame of the advanced pipeline restricted to a single constraint
(AdvancedClothSimulation.jsx, lines 266-349).  The force, collision and
integration passes read and write vertex positions but never touch any
constraint field; they are abstracted by arbitrary post-integration positions
p1 and p2 for the two endpoints.  Then the five solver iterations run
(lines 330-337), and the tear check runs exactly when tearing is enabled and
the frame counter is divisible by 60 (lines 340-349), abstracted here by the
onTearFrame flag. -/
noncomputable def AdvancedClothSimulation.constraintStep (enableTearing onTearFrame : Bool)
    (p1 p2 : THREE.Vector3) (c : AdvancedVerletConstraint) : AdvancedVerletConstraint :=
  let c0 : AdvancedVerletConstraint :=
    { c with v1 := { c.v1 with position := p1 }, v2 := { c.v2 with position := p2 } }
  let c5 := AdvancedClothSimulation.satisfyIter 5 c0
  if enableTearing && onTearFrame then AdvancedClothSimulation.tearCheck c5 else c5

/-! Concrete states used by counterexamples and witnesses. -/

/-- A free vertex at the origin, as produced by the constructor. -/
def selfCollideFree : AdvancedVerletVertex := AdvancedVerletVertex.init 0 0 0 false

/-- A fixed anchor vertex within self-collision range of selfCollideFree. -/
def selfCollideAnchor : AdvancedVerletVertex := AdvancedVerletVertex.init 0.05 0 0 true

/-- Two free unit-mass particles at distance 2 joined by a constraint with
rest length 1 and stiffness 0.5 (the scenario of the spec). -/
def stretchedPair : AdvancedVerletConstraint :=
  { v1 := AdvancedVerletVertex.init 0 0 0 false, v2 := AdvancedVerletVertex.init 2 0 0 false,
    restLength := 1, stiffness := 0.5, active := true }

/-- An active constraint between coincident free particles (rest length 1). -/
def restingPair : AdvancedVerletConstraint :=
  { v1 := AdvancedVerletVertex.init 0 0 0 false, v2 := AdvancedVerletVertex.init 0 0 0 false,
    restLength := 1, stiffness := 0.5, active := true }

/-- An already-torn constraint. -/
def tornPair : AdvancedVerletConstraint := { stretchedPair with active := false }

/-- A short constraint (rest length 0.05, below the 0.1 cutoff of the
in-solver tear check). -/
def shortPair : AdvancedVerletConstraint :=
  { v1 := AdvancedVerletVertex.init 0 0 0 false, v2 := AdvancedVerletVertex.init 0.05 0 0 false,
    restLength := 0.05, stiffness := 0.5, active := true }

/-- A constraint between masses 1 and 2 at distance 4 with rest length 10
(stretch well below the in-solver tear threshold 8). -/
def heavyLightPair : AdvancedVerletConstraint :=
  { v1 := AdvancedVerletVertex.init 0 0 0 false,
    v2 := { AdvancedVerletVertex.init 4 0 0 false with mass := 2 },
    restLength := 10, stiffness := 0.5, active := true }

/-- A free basic vertex at distance 0.1 from the origin. -/
def nearVertexBasic : VerletVertex := VerletVertex.init 0.1 0 0 false

/-- A free advanced vertex at distance 0.1 from the origin. -/
def nearVertexAdv : AdvancedVerletVertex := AdvancedVerletVertex.init 0.1 0 0 false

/-- A free advanced vertex exactly at the origin. -/
def centerVertexAdv : AdvancedVerletVertex := AdvancedVerletVertex.init 0 0 0 false

/-- A free advanced vertex with nonzero implicit velocity and mass 2. -/
def freeVertexAdv : AdvancedVerletVertex :=
  { AdvancedVerletVertex.init 1 0 0 false with oldPosition := ⟨0, 0, 0⟩, mass := 2 }

/-- A pinned (but not fixed) advanced vertex. -/
def pinnedVertexAdv : AdvancedVerletVertex :=
  { AdvancedVerletVertex.init 1 0 0 false with pinned := true }

/-- A fixed advanced vertex. -/
def fixedVertexAdv : AdvancedVerletVertex := AdvancedVerletVertex.init 1 0 0 true

/-- A free basic vertex with nonzero implicit velocity. -/
def freeVertexBasic : VerletVertex :=
  { VerletVertex.init 1 0 0 false with oldPosition := ⟨0, 0, 0⟩ }

/-- A fixed basic vertex. -/
def fixedVertexBasic : VerletVertex := VerletVertex.init 1 0 0 true

/-! Component lemmas for the vector operations. -/

@[ext]
theorem vec3_ext {a b : THREE.Vector3} (hx : a.x = b.x) (hy : a.y = b.y) (hz : a.z = b.z) :
    a = b := by
  cases a
  cases b
  simp_all

@[simp]
theorem vec3_add_x (a b : THREE.Vector3) : (a + b).x = a.x + b.x := rfl

@[simp]
theorem vec3_add_y (a b : THREE.Vector3) : (a + b).y = a.y + b.y := rfl

@[simp]
theorem vec3_add_z (a b : THREE.Vector3) : (a + b).z = a.z + b.z := rfl

@[simp]
theorem vec3_sub_x (a b : THREE.Vector3) : (a - b).x = a.x - b.x := rfl

@[simp]
theorem vec3_sub_y (a b : THREE.Vector3) : (a - b).y = a.y - b.y := rfl

@[simp]
theorem vec3_sub_z (a b : THREE.Vector3) : (a - b).z = a.z - b.z := rfl

@[simp]
theorem vec3_smul_x (t : ℝ) (a : THREE.Vector3) : (t • a).x = t * a.x := rfl

@[simp]
theorem vec3_smul_y (t : ℝ) (a : THREE.Vector3) : (t • a).y = t * a.y := rfl

@[simp]
theorem vec3_smul_z (t : ℝ) (a : THREE.Vector3) : (t • a).z = t * a.z := rfl

@[simp]
theorem vec3_zero_x : THREE.Vector3.zero.x = 0 := rfl

@[simp]
theorem vec3_zero_y : THREE.Vector3.zero.y = 0 := rfl

@[simp]
theorem vec3_zero_z : THREE.Vector3.zero.z = 0 := rfl

theorem vec3_length_axis (a : ℝ) : THREE.Vector3.length ⟨a, 0, 0⟩ = |a| := by
  unfold THREE.Vector3.length THREE.Vector3.dot
  rw [show a * a + 0 * 0 + 0 * 0 = a ^ 2 by ring, Real.sqrt_sq_eq_abs]

theorem vec3_length_zero : THREE.Vector3.length THREE.Vector3.zero = 0 := by
  unfold THREE.Vector3.length THREE.Vector3.dot
  simp

theorem vec3_length_smul (t : ℝ) (a : THREE.Vector3) :
    THREE.Vector3.length (t • a) = |t| * THREE.Vector3.length a := by
  unfold THREE.Vector3.length THREE.Vector3.dot
  simp only [vec3_smul_x, vec3_smul_y, vec3_smul_z]
  rw [show t * a.x * (t * a.x) + t * a.y * (t * a.y) + t * a.z * (t * a.z) =
      t ^ 2 * (a.x * a.x + a.y * a.y + a.z * a.z) by ring,
    Real.sqrt_mul (sq_nonneg t), Real.sqrt_sq_eq_abs]

theorem vec3_normalize_of_ne (a : THREE.Vector3) (h : THREE.Vector3.length a ≠ 0) :
    THREE.Vector3.normalize a = (THREE.Vector3.length a)⁻¹ • a := by
  unfold THREE.Vector3.normalize
  rw [if_neg h]

/-! Branch lemmas for the advanced solver pass. -/

theorem satisfy_of_inactive (c : AdvancedVerletConstraint) (h : c.active = false) :
    c.satisfy = c := by
  unfold AdvancedVerletConstraint.satisfy
  simp [h]

theorem satisfy_of_tear (c : AdvancedVerletConstraint) (ha : c.active = true)
    (hs : THREE.Vector3.length (c.v2.position - c.v1.position) >
      c.restLength * AdvancedClothSimulation.TEAR_THRESHOLD)
    (hr : c.restLength > 0.1) :
    c.satisfy = { c with active := false } := by
  unfold AdvancedVerletConstraint.satisfy
  simp only [ha, Bool.not_true, Bool.false_eq_true, if_false]
  rw [if_pos ⟨hs, hr⟩]

theorem satisfy_of_zero (c : AdvancedVerletConstraint) (ha : c.active = true)
    (hnt : ¬(THREE.Vector3.length (c.v2.position - c.v1.position) >
      c.restLength * AdvancedClothSimulation.TEAR_THRESHOLD ∧ c.restLength > 0.1))
    (hd : THREE.Vector3.length (c.v2.position - c.v1.position) = 0) :
    c.satisfy = c := by
  unfold AdvancedVerletConstraint.satisfy
  simp only [ha, Bool.not_true, Bool.false_eq_true, if_false]
  rw [if_neg hnt, if_pos hd]

theorem satisfy_of_relax (c : AdvancedVerletConstraint) (ha : c.active = true)
    (hnt : ¬(THREE.Vector3.length (c.v2.position - c.v1.position) >
      c.restLength * AdvancedClothSimulation.TEAR_THRESHOLD ∧ c.restLength > 0.1))
    (hd : THREE.Vector3.length (c.v2.position - c.v1.position) ≠ 0) :
    c.satisfy = { c with
      v1 := if !c.v1.isFixed && !c.v1.pinned then
          { c.v1 with position := c.v1.position -
              (c.v2.mass / (c.v1.mass + c.v2.mass)) •
                (((c.restLength - THREE.Vector3.length (c.v2.position - c.v1.position)) /
                    THREE.Vector3.length (c.v2.position - c.v1.position) * c.stiffness * 0.5) •
                  (c.v2.position - c.v1.position)) } else c.v1,
      v2 := if !c.v2.isFixed && !c.v2.pinned then
          { c.v2 with position := c.v2.position +
              (c.v1.mass / (c.v1.mass + c.v2.mass)) •
                (((c.restLength - THREE.Vector3.length (c.v2.position - c.v1.position)) /
                    THREE.Vector3.length (c.v2.position - c.v1.position) * c.stiffness * 0.5) •
                  (c.v2.position - c.v1.position)) } else c.v2 } := by
  unfold AdvancedVerletConstraint.satisfy
  simp only [ha, Bool.not_true, Bool.false_eq_true, if_false]
  rw [if_neg hnt, if_neg hd]

theorem satisfy_keeps_inactive (c : AdvancedVerletConstraint) (h : c.active = false) :
    c.satisfy.active = false := by
  rw [satisfy_of_inactive c h]
  exact h

theorem satisfy_restLength (c : AdvancedVerletConstraint) :
    c.satisfy.restLength = c.restLength := by
  by_cases h1 : c.active = false
  · rw [satisfy_of_inactive c h1]
  · have ha : c.active = true := by revert h1; cases c.active <;> simp
    by_cases h2 : THREE.Vector3.length (c.v2.position - c.v1.position) >
        c.restLength * AdvancedClothSimulation.TEAR_THRESHOLD ∧ c.restLength > 0.1
    · rw [satisfy_of_tear c ha h2.1 h2.2]
    · by_cases h3 : THREE.Vector3.length (c.v2.position - c.v1.position) = 0
      · rw [satisfy_of_zero c ha h2 h3]
      · rw [satisfy_of_relax c ha h2 h3]

theorem satisfy_active_of_short (c : AdvancedVerletConstraint) (h : c.restLength ≤ 0.1) :
    c.satisfy.active = c.active := by
  by_cases h1 : c.active = false
  · rw [satisfy_of_inactive c h1]
  · have ha : c.active = true := by revert h1; cases c.active <;> simp
    have hnt : ¬(THREE.Vector3.length (c.v2.position - c.v1.position) >
        c.restLength * AdvancedClothSimulation.TEAR_THRESHOLD ∧ c.restLength > 0.1) :=
      fun hc => absurd h (not_le.mpr hc.2)
    by_cases h3 : THREE.Vector3.length (c.v2.position - c.v1.position) = 0
    · rw [satisfy_of_zero c ha hnt h3]
    · rw [satisfy_of_relax c ha hnt h3]

theorem satisfyIter_inactive (n : ℕ) (c : AdvancedVerletConstraint) (h : c.active = false) :
    AdvancedClothSimulation.satisfyIter n c = c := by
  induction n generalizing c with
  | zero => rfl
  | succ n ih =>
    simp only [AdvancedClothSimulation.satisfyIter]
    rw [satisfy_of_inactive c h, ih c h]

theorem tearCheck_inactive (c : AdvancedVerletConstraint) (h : c.active = false) :
    AdvancedClothSimulation.tearCheck c = c := by
  unfold AdvancedClothSimulation.tearCheck
  simp [h]

theorem satisfyIter_keeps_inactive (n : ℕ) (c : AdvancedVerletConstraint)
    (h : c.active = false) : (AdvancedClothSimulation.satisfyIter n c).active = false := by
  rw [satisfyIter_inactive n c h]
  exact h

theorem tearCheck_keeps_inactive (c : AdvancedVerletConstraint) (h : c.active = false) :
    (AdvancedClothSimulation.tearCheck c).active = false := by
  rw [tearCheck_inactive c h]
  exact h

theorem constraintStep_inactive (e t : Bool) (p1 p2 : THREE.Vector3)
    (c : AdvancedVerletConstraint) (h : c.active = false) :
    (AdvancedClothSimulation.constraintStep e t p1 p2 c).active = false := by
  unfold AdvancedClothSimulation.constraintStep
  dsimp only
  split
  · exact tearCheck_keeps_inactive _ (satisfyIter_keeps_inactive 5 _ h)
  · exact satisfyIter_keeps_inactive 5 _ h

@[simp]
theorem vec3_zero_add (a : THREE.Vector3) : THREE.Vector3.zero + a = a := by
  ext <;> simp

@[simp]
theorem vec3_add_zero (a : THREE.Vector3) : a + THREE.Vector3.zero = a := by
  ext <;> simp

@[simp]
theorem vec3_smul_zero (t : ℝ) : t • THREE.Vector3.zero = THREE.Vector3.zero := by
  ext <;> simp

/-- C9: with wind intensity zero the wind force of both variants is the exact
zero vector for every particle position and every frame time, and adding that
wind force to any particle leaves the particle unchanged, so the total
external force on a free particle is exactly gravity. -/
theorem zero_wind_zero_force (time : ℝ) (pos : THREE.Vector3) (p : AdvancedVerletVertex) :
    AdvancedClothSimulation.windForce time pos 0 = THREE.Vector3.zero
    ∧ ClothSimulation.windForce time pos 0 = THREE.Vector3.zero
    ∧ p.addForce (AdvancedClothSimulation.windForce time pos 0) = p := by
  have hadv : AdvancedClothSimulation.windForce time pos 0 = THREE.Vector3.zero := by
    unfold AdvancedClothSimulation.windForce
    ext <;> simp
  refine ⟨hadv, ?_, ?_⟩
  · unfold ClothSimulation.windForce
    ext <;> simp
  · rw [hadv]
    unfold AdvancedVerletVertex.addForce
    split
    · have hz : p.acceleration + (1 / p.mass) • THREE.Vector3.zero = p.acceleration := by
        ext <;> simp
      rw [hz]
    · rfl

/-- C4 (amended): in the advanced variant addForce adds the force scaled by
the inverse mass when the particle is neither fixed nor pinned and is a no-op
on fixed or pinned particles; in the basic variant addForce adds the raw
force to the acceleration unconditionally, with no mass scaling and no
fixed guard. -/
theorem addForce_contract (p : AdvancedVerletVertex) (q : VerletVertex)
    (f g : THREE.Vector3) :
    (p.isFixed = false → p.pinned = false →
      p.addForce f = { p with acceleration := p.acceleration + p.mass⁻¹ • f })
    ∧ (p.isFixed = true ∨ p.pinned = true → p.addForce f = p)
    ∧ q.addForce g = { q with acceleration := q.acceleration + g } := by
  refine ⟨?_, ?_, rfl⟩
  · intro h1 h2
    unfold AdvancedVerletVertex.addForce
    rw [if_pos (by simp [h1, h2]), one_div]
  · intro h
    unfold AdvancedVerletVertex.addForce
    have hc : ¬((!p.isFixed && !p.pinned) = true) := by
      rcases h with h | h <;> simp [h]
    rw [if_neg hc]

/-- C4 counterexample: basic addForce on a fixed vertex changes the
acceleration, so calling it on a fixed particle is not a no-op as claimed. -/
theorem basic_addForce_not_noop_on_fixed :
    fixedVertexBasic.isFixed = true
    ∧ (fixedVertexBasic.addForce ⟨0, 1, 0⟩).acceleration ≠ fixedVertexBasic.acceleration := by
  refine ⟨rfl, fun h => ?_⟩
  have hy := congrArg THREE.Vector3.y h
  norm_num [VerletVertex.addForce, fixedVertexBasic, VerletVertex.init] at hy

/-- Witness for addForce_contract at concrete vertices. -/
theorem addForce_contract_witness :
    freeVertexAdv.addForce ⟨0, 1, 0⟩
        = { freeVertexAdv with
            acceleration := freeVertexAdv.acceleration + freeVertexAdv.mass⁻¹ • ⟨0, 1, 0⟩ }
    ∧ fixedVertexAdv.addForce ⟨0, 1, 0⟩ = fixedVertexAdv
    ∧ freeVertexBasic.addForce ⟨0, 1, 0⟩
        = { freeVertexBasic with acceleration := freeVertexBasic.acceleration + ⟨0, 1, 0⟩ } :=
  ⟨(addForce_contract freeVertexAdv freeVertexBasic ⟨0, 1, 0⟩ ⟨0, 1, 0⟩).1 rfl rfl,
   (addForce_contract fixedVertexAdv freeVertexBasic ⟨0, 1, 0⟩ ⟨0, 1, 0⟩).2.1 (Or.inl rfl),
   (addForce_contract freeVertexAdv freeVertexBasic ⟨0, 1, 0⟩ ⟨0, 1, 0⟩).2.2⟩

/-- C7: integration advances every non-fixed non-pinned particle to
position + damping times (position minus previousPosition) + acceleration
times dt squared, saves the pre-step position as the new previous position
and resets the accumulated acceleration to zero; fixed and pinned particles
are skipped entirely.  The nested clause links the acceleration to
accumulated force over mass through addForce. -/
theorem integrate_contract (p : AdvancedVerletVertex) (q : VerletVertex)
    (f : THREE.Vector3) (dt : ℝ) :
    (p.isFixed = false → p.pinned = false →
      (p.update dt).position
          = p.position + AdvancedClothSimulation.DAMPING • (p.position - p.oldPosition)
            + (dt * dt) • p.acceleration
      ∧ (p.update dt).oldPosition = p.position
      ∧ (p.update dt).acceleration = THREE.Vector3.zero
      ∧ (p.acceleration = THREE.Vector3.zero →
          ((p.addForce f).update dt).position
            = p.position + AdvancedClothSimulation.DAMPING • (p.position - p.oldPosition)
              + (dt * dt) • (p.mass⁻¹ • f)))
    ∧ (p.isFixed = true ∨ p.pinned = true → p.update dt = p)
    ∧ (q.isFixed = false →
      (q.update dt).position
          = q.position + ClothSimulation.DAMPING • (q.position - q.oldPosition)
            + (dt * dt) • q.acceleration
      ∧ (q.update dt).oldPosition = q.position
      ∧ (q.update dt).acceleration = THREE.Vector3.zero)
    ∧ (q.isFixed = true → q.update dt = q) := by
  refine ⟨?_, ?_, ?_, ?_⟩
  · intro h1 h2
    have hcond : ¬((p.isFixed || p.pinned) = true) := by simp [h1, h2]
    have hup : p.update dt = { p with
        oldPosition := p.position,
        position := p.position + AdvancedClothSimulation.DAMPING • (p.position - p.oldPosition)
          + (dt * dt) • p.acceleration,
        acceleration := THREE.Vector3.zero } := by
      unfold AdvancedVerletVertex.update
      rw [if_neg hcond]
    refine ⟨by rw [hup], by rw [hup], by rw [hup], ?_⟩
    intro hacc
    have haf : p.addForce f = { p with acceleration := p.acceleration + (1 / p.mass) • f } := by
      unfold AdvancedVerletVertex.addForce
      rw [if_pos (by simp [h1, h2])]
    rw [haf]
    unfold AdvancedVerletVertex.update
    dsimp only
    rw [if_neg hcond]
    dsimp only
    rw [hacc, vec3_zero_add, one_div]
  · intro h
    unfold AdvancedVerletVertex.update
    rw [if_pos (by rcases h with h | h <;> simp [h])]
  · intro h1
    have hup : q.update dt = { q with
        oldPosition := q.position,
        position := q.position + ClothSimulation.DAMPING • (q.position - q.oldPosition)
          + (dt * dt) • q.acceleration,
        acceleration := THREE.Vector3.zero } := by
      unfold VerletVertex.update
      rw [if_neg (by simp [h1])]
    exact ⟨by rw [hup], by rw [hup], by rw [hup]⟩
  · intro h1
    unfold VerletVertex.update
    rw [if_pos h1]

/-- Witness for integrate_contract at concrete vertices. -/
theorem integrate_contract_witness :
    (freeVertexAdv.update 1).oldPosition = freeVertexAdv.position
    ∧ pinnedVertexAdv.update 1 = pinnedVertexAdv
    ∧ ((freeVertexAdv.addForce ⟨3, 0, 0⟩).update 1).position
        = freeVertexAdv.position
          + AdvancedClothSimulation.DAMPING • (freeVertexAdv.position - freeVertexAdv.oldPosition)
          + ((1 : ℝ) * 1) • (freeVertexAdv.mass⁻¹ • ⟨3, 0, 0⟩)
    ∧ (freeVertexBasic.update 1).oldPosition = freeVertexBasic.position
    ∧ fixedVertexBasic.update 1 = fixedVertexBasic :=
  ⟨((integrate_contract freeVertexAdv freeVertexBasic ⟨3, 0, 0⟩ 1).1 rfl rfl).2.1,
   (integrate_contract pinnedVertexAdv freeVertexBasic ⟨3, 0, 0⟩ 1).2.1 (Or.inr rfl),
   ((integrate_contract freeVertexAdv freeVertexBasic ⟨3, 0, 0⟩ 1).1 rfl rfl).2.2.2 rfl,
   ((integrate_contract freeVertexAdv freeVertexBasic ⟨3, 0, 0⟩ 1).2.2.1 rfl).2.1,
   (integrate_contract freeVertexAdv fixedVertexBasic ⟨3, 0, 0⟩ 1).2.2.2 rfl⟩

/-- C10: the solver pass never changes the active flag of a constraint whose
rest length is at most 0.1: any number of satisfy calls leaves the flag
exactly as it was, so for such short constraints the periodic tear check is
the only deactivation path. -/
theorem short_constraint_solver_keeps_active (c : AdvancedVerletConstraint)
    (h : c.restLength ≤ 0.1) (n : ℕ) :
    (AdvancedClothSimulation.satisfyIter n c).active = c.active := by
  induction n generalizing c with
  | zero => rfl
  | succ n ih =>
    simp only [AdvancedClothSimulation.satisfyIter]
    rw [ih c.satisfy (by rw [satisfy_restLength]; exact h), satisfy_active_of_short c h]

/-- Witness for short_constraint_solver_keeps_active at a concrete short
constraint and three solver passes. -/
theorem short_constraint_solver_keeps_active_witness :
    shortPair.restLength ≤ 0.1
    ∧ (AdvancedClothSimulation.satisfyIter 3 shortPair).active = shortPair.active :=
  ⟨by norm_num [shortPair],
   short_constraint_solver_keeps_active shortPair (by norm_num [shortPair]) 3⟩

/-- C8: tearing is monotonic and one-way; once a constraint's active flag is
false it remains false after every subsequent pipeline step, whatever
positions the force, collision and integration passes produce and whatever
the tearing flags of those steps are. -/
theorem tearing_monotonic_over_steps (c : AdvancedVerletConstraint) (h : c.active = false)
    (steps : List (Bool × Bool × THREE.Vector3 × THREE.Vector3)) :
    (steps.foldl
        (fun a s => AdvancedClothSimulation.constraintStep s.1 s.2.1 s.2.2.1 s.2.2.2 a)
        c).active = false := by
  induction steps generalizing c with
  | nil => exact h
  | cons s rest ih =>
    simp only [List.foldl_cons]
    exact ih _ (constraintStep_inactive s.1 s.2.1 s.2.2.1 s.2.2.2 c h)

/-- Witness for tearing_monotonic_over_steps: a torn constraint stays torn
through a step with tearing enabled and stretched positions. -/
theorem tearing_monotonic_over_steps_witness :
    tornPair.active = false
    ∧ (([((true : Bool), (true : Bool), (⟨0, 0, 0⟩ : THREE.Vector3),
          (⟨9, 0, 0⟩ : THREE.Vector3))]).foldl
        (fun a s => AdvancedClothSimulation.constraintStep s.1 s.2.1 s.2.2.1 s.2.2.2 a)
        tornPair).active = false :=
  ⟨rfl, tearing_monotonic_over_steps tornPair rfl _⟩

/-- A step with the tear-enable flag false reduces to the five solver
iterations on the repositioned constraint (the periodic tear check is
skipped). -/
theorem constraintStep_disabled_eq (t : Bool) (p1 p2 : THREE.Vector3)
    (c : AdvancedVerletConstraint) :
    AdvancedClothSimulation.constraintStep false t p1 p2 c
      = AdvancedClothSimulation.satisfyIter 5
          { c with v1 := { c.v1 with position := p1 }, v2 := { c.v2 with position := p2 } } := by
  unfold AdvancedClothSimulation.constraintStep
  dsimp only
  rw [if_neg (by simp)]

/-- The scenario constraint is stretched to distance 2. -/
theorem stretchedPair_length :
    THREE.Vector3.length (stretchedPair.v2.position - stretchedPair.v1.position) = 2 := by
  have hv : stretchedPair.v2.position - stretchedPair.v1.position
      = (⟨2, 0, 0⟩ : THREE.Vector3) := by
    ext <;> norm_num [stretchedPair, AdvancedVerletVertex.init]
  rw [hv, vec3_length_axis]
  norm_num

/-- One satisfy call on the scenario constraint fires the in-solver tear
check and deactivates the constraint without moving either particle. -/
theorem stretchedPair_tears :
    stretchedPair.satisfy = { stretchedPair with active := false } :=
  satisfy_of_tear stretchedPair rfl
    (by
      rw [stretchedPair_length]
      norm_num [stretchedPair, AdvancedClothSimulation.TEAR_THRESHOLD])
    (by norm_num [stretchedPair])

/-- C2 (amended): with the tear-enable flag false a pipeline step never turns
a constraint's active flag back on: an inactive constraint stays inactive
through the step.  The flag can still be cleared during such a step by the
in-solver tear check inside satisfy, as the companion counterexample shows. -/
theorem tearing_disabled_step_never_activates (t : Bool) (p1 p2 : THREE.Vector3)
    (c : AdvancedVerletConstraint) (h : c.active = false) :
    (AdvancedClothSimulation.constraintStep false t p1 p2 c).active = false :=
  constraintStep_inactive false t p1 p2 c h

/-- Witness for tearing_disabled_step_never_activates at a concrete torn
constraint. -/
theorem tearing_disabled_step_never_activates_witness :
    tornPair.active = false
    ∧ (AdvancedClothSimulation.constraintStep false true ⟨0, 0, 0⟩ ⟨9, 0, 0⟩ tornPair).active
        = false :=
  ⟨rfl, tearing_disabled_step_never_activates true ⟨0, 0, 0⟩ ⟨9, 0, 0⟩ tornPair rfl⟩

/-- C2 counterexample: with tearing disabled by configuration, one pipeline
step on an active constraint stretched past 0.8 times its rest length clears
the active flag, so the flag after the step differs from its value before. -/
theorem tearing_disabled_step_clears_flag :
    stretchedPair.active = true
    ∧ (AdvancedClothSimulation.constraintStep false false ⟨0, 0, 0⟩ ⟨2, 0, 0⟩
        stretchedPair).active = false := by
  refine ⟨rfl, ?_⟩
  rw [constraintStep_disabled_eq]
  have hre : ({ stretchedPair with
        v1 := { stretchedPair.v1 with position := ⟨0, 0, 0⟩ },
        v2 := { stretchedPair.v2 with position := ⟨2, 0, 0⟩ } } : AdvancedVerletConstraint)
      = stretchedPair := rfl
  rw [hre]
  have hd : ({ stretchedPair with active := false } : AdvancedVerletConstraint).satisfy
      = { stretchedPair with active := false } := satisfy_of_inactive _ rfl
  simp only [AdvancedClothSimulation.satisfyIter]
  rw [stretchedPair_tears]
  simp only [hd]

/-- C3 counterexample: in the scenario with rest length 1.0, stiffness 0.5
and current distance 2.0, one satisfy call does not leave the particles at
distance 1.5. -/
theorem relaxation_scenario_distance_not_reduced :
    THREE.Vector3.distanceTo stretchedPair.satisfy.v1.position
        stretchedPair.satisfy.v2.position ≠ 1.5 := by
  rw [stretchedPair_tears]
  dsimp only
  have hdist : THREE.Vector3.distanceTo stretchedPair.v1.position stretchedPair.v2.position
      = 2 := by
    unfold THREE.Vector3.distanceTo
    have hv : stretchedPair.v1.position - stretchedPair.v2.position
        = (⟨-2, 0, 0⟩ : THREE.Vector3) := by
      ext <;> norm_num [stretchedPair, AdvancedVerletVertex.init]
    rw [hv, vec3_length_axis]
    norm_num
  rw [hdist]
  norm_num

/-- C3 (amended): one satisfy call on the scenario constraint (rest length
1.0, stiffness 0.5, distance 2.0) fires the in-solver tear check, because
2.0 exceeds 0.8 times the rest length and the rest length exceeds 0.1: the
constraint is deactivated and both particles stay put, still at distance
2.0, instead of relaxing toward distance 1.5. -/
theorem relaxation_scenario_tears_instead :
    stretchedPair.satisfy.active = false
    ∧ stretchedPair.satisfy.v1.position = stretchedPair.v1.position
    ∧ stretchedPair.satisfy.v2.position = stretchedPair.v2.position
    ∧ THREE.Vector3.distanceTo stretchedPair.satisfy.v1.position
        stretchedPair.satisfy.v2.position = 2 := by
  rw [stretchedPair_tears]
  refine ⟨rfl, rfl, rfl, ?_⟩
  dsimp only
  unfold THREE.Vector3.distanceTo
  have hv : stretchedPair.v1.position - stretchedPair.v2.position
      = (⟨-2, 0, 0⟩ : THREE.Vector3) := by
    ext <;> norm_num [stretchedPair, AdvancedVerletVertex.init]
  rw [hv, vec3_length_axis]
  norm_num

theorem vec3_smul_smul (a b : ℝ) (v : THREE.Vector3) : a • b • v = (a * b) • v := by
  ext <;> simp <;> ring

theorem vec3_length_nonneg (a : THREE.Vector3) : 0 ≤ THREE.Vector3.length a :=
  Real.sqrt_nonneg _

theorem vec3_sub_cancel_left (p w : THREE.Vector3) : (p - w) - p = (-1 : ℝ) • w := by
  ext <;> simp

theorem vec3_add_cancel_left (p w : THREE.Vector3) : (p + w) - p = w := by
  ext <;> simp

/-- C1: the self-collision pass of the advanced variant moves a fixed
particle.  With a free vertex at the origin and a fixed anchor 0.05 away (a
pair the strided pass compares), the pass pushes the fixed anchor from
x = 0.05 to x = 0.075, so a fixed particle's position changes during a step,
contrary to the fixed-particle invariant that every other pass respects. -/
theorem selfcollision_moves_fixed_vertex :
    selfCollideAnchor.isFixed = true
    ∧ (AdvancedClothSimulation.selfCollide selfCollideFree selfCollideAnchor).2.position
        ≠ selfCollideAnchor.position := by
  have hdiff : selfCollideFree.position - selfCollideAnchor.position
      = (⟨-0.05, 0, 0⟩ : THREE.Vector3) := by
    ext <;> norm_num [selfCollideFree, selfCollideAnchor, AdvancedVerletVertex.init]
  have hlen : THREE.Vector3.length (⟨-0.05, 0, 0⟩ : THREE.Vector3) = 0.05 := by
    rw [vec3_length_axis, abs_of_neg (by norm_num : (-0.05 : ℝ) < 0)]
    norm_num
  have hdist : THREE.Vector3.distanceTo selfCollideFree.position selfCollideAnchor.position
      = 0.05 := by
    unfold THREE.Vector3.distanceTo
    rw [hdiff, hlen]
  have hnorm : THREE.Vector3.normalize (⟨-0.05, 0, 0⟩ : THREE.Vector3)
      = (⟨-1, 0, 0⟩ : THREE.Vector3) := by
    rw [vec3_normalize_of_ne _ (by rw [hlen]; norm_num), hlen]
    ext <;> norm_num
  refine ⟨rfl, ?_⟩
  unfold AdvancedClothSimulation.selfCollide
  dsimp only
  rw [if_pos (by rw [hdist]; norm_num :
      THREE.Vector3.distanceTo selfCollideFree.position selfCollideAnchor.position < 0.1
      ∧ THREE.Vector3.distanceTo selfCollideFree.position selfCollideAnchor.position > 0)]
  dsimp only
  rw [hdist, hdiff, hnorm]
  intro h
  have hx := congrArg THREE.Vector3.x h
  norm_num [selfCollideAnchor, AdvancedVerletVertex.init] at hx

/-- Positional correction of the sphere collision: a particle strictly
inside the shell and away from the center lands exactly on the shell. -/
theorem sphere_correction_length (center p : THREE.Vector3) (m : ℝ)
    (h0 : 0 < THREE.Vector3.length (p - center))
    (h1 : THREE.Vector3.length (p - center) < m) :
    THREE.Vector3.length
      ((p + (m - THREE.Vector3.length (p - center)) • THREE.Vector3.normalize (p - center))
        - center) = m := by
  have hdne : THREE.Vector3.length (p - center) ≠ 0 := ne_of_gt h0
  rw [vec3_normalize_of_ne _ hdne]
  have key : (p + (m - THREE.Vector3.length (p - center)) •
      (THREE.Vector3.length (p - center))⁻¹ • (p - center)) - center
      = (m / THREE.Vector3.length (p - center)) • (p - center) := by
    ext <;> (simp; field_simp; ring)
  rw [key, vec3_length_smul,
    abs_of_pos (div_pos (lt_trans h0 h1) h0)]
  exact div_mul_cancel₀ m hdne

/-- C5 (amended): a free particle strictly between the sphere center and the
collision shell (0 < d < radius + margin) is pushed to distance exactly
radius + margin from the same-frame sphere center, in both variants (margin
0.05 basic, 0.08 advanced); a particle exactly at distance 0 is left in
place, as the companion counterexample shows. -/
theorem sphere_collision_exact_distance (center : THREE.Vector3) (radius : ℝ)
    (v : VerletVertex) (w : AdvancedVerletVertex)
    (hb0 : 0 < THREE.Vector3.length (v.position - center))
    (hb1 : THREE.Vector3.length (v.position - center) < radius + 0.05)
    (ha0 : 0 < THREE.Vector3.length (w.position - center))
    (ha1 : THREE.Vector3.length (w.position - center) < radius + 0.08) :
    THREE.Vector3.length
        ((ClothSimulation.sphereCollide center radius v).position - center) = radius + 0.05
    ∧ THREE.Vector3.length
        ((AdvancedClothSimulation.sphereCollide center radius w).position - center)
      = radius + 0.08 := by
  constructor
  · have hpos : (ClothSimulation.sphereCollide center radius v).position
        = v.position + ((radius + 0.05) - THREE.Vector3.length (v.position - center)) •
          THREE.Vector3.normalize (v.position - center) := by
      unfold ClothSimulation.sphereCollide
      dsimp only
      rw [if_pos hb1]
    rw [hpos]
    exact sphere_correction_length center v.position (radius + 0.05) hb0 hb1
  · have hpos : (AdvancedClothSimulation.sphereCollide center radius w).position
        = w.position + ((radius + 0.08) - THREE.Vector3.length (w.position - center)) •
          THREE.Vector3.normalize (w.position - center) := by
      unfold AdvancedClothSimulation.sphereCollide
      dsimp only
      rw [if_pos ⟨ha1, ha0⟩]
      split
      · rfl
      · rfl
    rw [hpos]
    exact sphere_correction_length center w.position (radius + 0.08) ha0 ha1

/-- The near vertex of the basic variant sits at distance 0.1 from the
origin. -/
theorem nearVertexBasic_dist :
    THREE.Vector3.length (nearVertexBasic.position - ⟨0, 0, 0⟩) = 0.1 := by
  have hv : nearVertexBasic.position - (⟨0, 0, 0⟩ : THREE.Vector3)
      = (⟨0.1, 0, 0⟩ : THREE.Vector3) := by
    ext <;> norm_num [nearVertexBasic, VerletVertex.init]
  rw [hv, vec3_length_axis, abs_of_nonneg (by norm_num : (0 : ℝ) ≤ 0.1)]

/-- The near vertex of the advanced variant sits at distance 0.1 from the
origin. -/
theorem nearVertexAdv_dist :
    THREE.Vector3.length (nearVertexAdv.position - ⟨0, 0, 0⟩) = 0.1 := by
  have hv : nearVertexAdv.position - (⟨0, 0, 0⟩ : THREE.Vector3)
      = (⟨0.1, 0, 0⟩ : THREE.Vector3) := by
    ext <;> norm_num [nearVertexAdv, AdvancedVerletVertex.init]
  rw [hv, vec3_length_axis, abs_of_nonneg (by norm_num : (0 : ℝ) ≤ 0.1)]

/-- Witness for sphere_collision_exact_distance: vertices at distance 0.1
from a radius-0.25 sphere land on the shells 0.3 and 0.33. -/
theorem sphere_collision_exact_distance_witness :
    THREE.Vector3.length
        ((ClothSimulation.sphereCollide ⟨0, 0, 0⟩ 0.25 nearVertexBasic).position - ⟨0, 0, 0⟩)
      = 0.25 + 0.05
    ∧ THREE.Vector3.length
        ((AdvancedClothSimulation.sphereCollide ⟨0, 0, 0⟩ 0.25 nearVertexAdv).position
          - ⟨0, 0, 0⟩)
      = 0.25 + 0.08 :=
  sphere_collision_exact_distance ⟨0, 0, 0⟩ 0.25 nearVertexBasic nearVertexAdv
    (by rw [nearVertexBasic_dist]; norm_num)
    (by rw [nearVertexBasic_dist]; norm_num)
    (by rw [nearVertexAdv_dist]; norm_num)
    (by rw [nearVertexAdv_dist]; norm_num)

/-- C5 counterexample: a free particle exactly at the sphere center has
distance 0 < radius + margin, but the advanced collision resolution leaves
it at distance 0, not at radius + margin. -/
theorem sphere_collision_center_unmoved :
    centerVertexAdv.isFixed = false
    ∧ THREE.Vector3.length (centerVertexAdv.position - ⟨0, 0, 0⟩) < 0.3 + 0.08
    ∧ THREE.Vector3.length
        ((AdvancedClothSimulation.sphereCollide ⟨0, 0, 0⟩ 0.3 centerVertexAdv).position
          - ⟨0, 0, 0⟩)
      ≠ 0.3 + 0.08 := by
  have hv : centerVertexAdv.position - (⟨0, 0, 0⟩ : THREE.Vector3)
      = (⟨0, 0, 0⟩ : THREE.Vector3) := by
    ext <;> norm_num [centerVertexAdv, AdvancedVerletVertex.init]
  have h0 : THREE.Vector3.length (centerVertexAdv.position - ⟨0, 0, 0⟩) = 0 := by
    rw [hv, vec3_length_axis, abs_zero]
  refine ⟨rfl, by rw [h0]; norm_num, ?_⟩
  have hcond : ¬(THREE.Vector3.length (centerVertexAdv.position - ⟨0, 0, 0⟩) < 0.3 + 0.08
      ∧ THREE.Vector3.length (centerVertexAdv.position - ⟨0, 0, 0⟩) > 0) := by
    rw [h0]
    norm_num
  have hid : AdvancedClothSimulation.sphereCollide ⟨0, 0, 0⟩ 0.3 centerVertexAdv
      = centerVertexAdv := by
    unfold AdvancedClothSimulation.sphereCollide
    dsimp only
    rw [if_neg hcond]
  rw [hid, h0]
  norm_num

/-- C6: one solver pass on an active constraint between two free particles
of positive masses, whose distance is nonzero, differs from the rest length
and does not trip the in-solver tear check, displaces the two endpoints with
magnitudes in the ratio m2 / m1: inverse-mass weighting, the heavier
particle moves proportionally less. -/
theorem mass_weighted_displacement_split (c : AdvancedVerletConstraint)
    (ha : c.active = true)
    (hf1 : c.v1.isFixed = false) (hp1 : c.v1.pinned = false)
    (hf2 : c.v2.isFixed = false) (hp2 : c.v2.pinned = false)
    (hm1 : 0 < c.v1.mass) (hm2 : 0 < c.v2.mass)
    (_hmne : c.v1.mass ≠ c.v2.mass)
    (hst : 0 < c.stiffness)
    (hnt : ¬(THREE.Vector3.length (c.v2.position - c.v1.position) >
        c.restLength * AdvancedClothSimulation.TEAR_THRESHOLD ∧ c.restLength > 0.1))
    (hd0 : THREE.Vector3.length (c.v2.position - c.v1.position) ≠ 0)
    (hdr : THREE.Vector3.length (c.v2.position - c.v1.position) ≠ c.restLength) :
    THREE.Vector3.length (c.satisfy.v1.position - c.v1.position)
      / THREE.Vector3.length (c.satisfy.v2.position - c.v2.position)
      = c.v2.mass / c.v1.mass := by
  have hLpos : 0 < THREE.Vector3.length (c.v2.position - c.v1.position) :=
    lt_of_le_of_ne (vec3_length_nonneg _) (Ne.symm hd0)
  have htot : 0 < c.v1.mass + c.v2.mass := add_pos hm1 hm2
  have hkne : (c.restLength - THREE.Vector3.length (c.v2.position - c.v1.position)) /
      THREE.Vector3.length (c.v2.position - c.v1.position) * c.stiffness * 0.5 ≠ 0 := by
    apply mul_ne_zero
    apply mul_ne_zero
    · exact div_ne_zero (sub_ne_zero.mpr (Ne.symm hdr)) hd0
    · exact ne_of_gt hst
    · norm_num
  rw [satisfy_of_relax c ha hnt hd0]
  dsimp only
  rw [if_pos (show (!c.v1.isFixed && !c.v1.pinned) = true by simp [hf1, hp1]),
    if_pos (show (!c.v2.isFixed && !c.v2.pinned) = true by simp [hf2, hp2])]
  dsimp only
  rw [vec3_sub_cancel_left, vec3_add_cancel_left]
  simp only [vec3_length_smul]
  rw [abs_neg, abs_one, one_mul,
    abs_of_pos (div_pos hm2 htot), abs_of_pos (div_pos hm1 htot)]
  have habsk : |(c.restLength - THREE.Vector3.length (c.v2.position - c.v1.position)) /
      THREE.Vector3.length (c.v2.position - c.v1.position) * c.stiffness * 0.5| ≠ 0 :=
    abs_ne_zero.mpr hkne
  rw [mul_div_mul_right _ _ (mul_ne_zero habsk (ne_of_gt hLpos)),
    div_div_div_cancel_right₀ (ne_of_gt htot)]

/-- Witness for mass_weighted_displacement_split: masses 1 and 2 at distance
4 with rest length 10 and stiffness 0.5 give displacement ratio 2. -/
theorem mass_weighted_displacement_split_witness :
    THREE.Vector3.length (heavyLightPair.satisfy.v1.position - heavyLightPair.v1.position)
      / THREE.Vector3.length (heavyLightPair.satisfy.v2.position - heavyLightPair.v2.position)
      = 2 := by
  have hv : heavyLightPair.v2.position - heavyLightPair.v1.position
      = (⟨4, 0, 0⟩ : THREE.Vector3) := by
    ext <;> norm_num [heavyLightPair, AdvancedVerletVertex.init]
  have hlen : THREE.Vector3.length (heavyLightPair.v2.position - heavyLightPair.v1.position)
      = 4 := by
    rw [hv, vec3_length_axis, abs_of_nonneg (by norm_num : (0 : ℝ) ≤ 4)]
  have h := mass_weighted_displacement_split heavyLightPair rfl rfl rfl rfl rfl
    (by norm_num [heavyLightPair, AdvancedVerletVertex.init])
    (by norm_num [heavyLightPair, AdvancedVerletVertex.init])
    (by norm_num [heavyLightPair, AdvancedVerletVertex.init])
    (by norm_num [heavyLightPair])
    (by rw [hlen]; norm_num [heavyLightPair, AdvancedClothSimulation.TEAR_THRESHOLD])
    (by rw [hlen]; norm_num)
    (by rw [hlen]; norm_num [heavyLightPair])
  rw [h]
  norm_num [heavyLightPair, AdvancedVerletVertex.init]
